import Mathlib

/-!
Verification of the error module of the deribit-base crate.

This file gives a shallow embedding of `src/error/codes.rs`,
`src/error/conversions.rs` and `src/error/types.rs`: the
`DeribitErrorCode` enum with its numeric-code conversions, message table
and category predicates, the `DeribitError` envelope with its `Display`
rendering, and the `From` conversions between them.  Rust `i32` values are
modelled as `Int` and `u16` HTTP statuses as `Nat`; `matches!` macros
become Boolean pattern matches.
-/

namespace DeribitBase

inductive DeribitErrorCode where
  | Success
  | AuthorizationRequired
  | Error
  | QtyTooLow
  | OrderOverlap
  | OrderNotFound
  | PriceTooLow
  | PriceTooLow4Idx
  | PriceTooHigh
  | NotEnoughFunds
  | AlreadyClosed
  | PriceNotAllowed
  | BookClosed
  | PmeMaxTotalOpenOrders
  | PmeMaxFutureOpenOrders
  | PmeMaxOptionOpenOrders
  | PmeMaxFutureOpenOrdersSize
  | PmeMaxOptionOpenOrdersSize
  | NonPmeMaxFuturePositionSize
  | LockedByAdmin
  | InvalidOrUnsupportedInstrument
  | InvalidAmount
  | InvalidQuantity
  | InvalidPrice
  | InvalidMaxShow
  | InvalidOrderId
  | PricePrecisionExceeded
  | NonIntegerContractAmount
  | TooManyRequests
  | NotOwnerOfOrder
  | MustBeWebsocketRequest
  | InvalidArgsForInstrument
  | WholeCostTooLow
  | NotImplemented
  | TriggerPriceTooHigh
  | TriggerPriceTooLow
  | InvalidMaxShowAmount
  | NonPmeTotalShortOptionsPositionsSize
  | PmeMaxRiskReducingOrders
  | NotEnoughFundsInCurrency
  | Retry
  | SettlementInProgress
  | PriceWrongTick
  | TriggerPriceWrongTick
  | CanNotCancelLiquidationOrder
  | CanNotEditLiquidationOrder
  | MatchingEngineQueueFull
  | NotOnThisServer
  | CancelOnDisconnectFailed
  | TooManyConcurrentRequests
  | DisabledWhilePositionLock
  | AlreadyFilled
  | MaxSpotOpenOrders
  | PostOnlyPriceModificationNotPossible
  | MaxSpotOrderQuantity
  | InvalidArguments
  | OtherReject
  | OtherError
  | NoMoreTriggers
  | InvalidTriggerPrice
  | OutdatedInstrumentForIvOrder
  | NoAdvForFutures
  | NoAdvPostonly
  | NotAdvOrder
  | PermissionDenied
  | BadArgument
  | NotOpenOrder
  | InvalidEvent
  | OutdatedInstrument
  | UnsupportedArgCombination
  | WrongMaxShowForOption
  | BadArguments
  | BadRequest
  | SystemMaintenance
  | SubscribeErrorUnsubscribed
  | TransferNotFound
  | PostOnlyReject
  | PostOnlyNotAllowed
  | UnauthenticatedPublicRequestsTemporarilyDisabled
  | InvalidAddr
  | InvalidTransferAddress
  | AddressAlreadyExist
  | MaxAddrCountExceeded
  | InternalServerError
  | DisabledDepositAddressCreation
  | AddressBelongsToUser
  | NoDepositAddress
  | AccountLocked
  | TooManySubaccounts
  | WrongSubaccountName
  | LoginOverLimit
  | RegistrationOverLimit
  | CountryIsBanned
  | TransferNotAllowed
  | SecurityKeyAuthorizationOverLimit
  | InvalidCredentials
  | PwdMatchError
  | SecurityError
  | UserNotFound
  | RequestFailed
  | Unauthorized
  | ValueRequired
  | ValueTooShort
  | UnavailableInSubaccount
  | InvalidPhoneNumber
  | CannotSendSms
  | InvalidSmsCode
  | InvalidInput
  | InvalidContentType
  | OrderbookClosed
  | NotFound
  | Forbidden
  | MethodSwitchedOffByAdmin
  | TemporarilyUnavailable
  | MmpTrigger
  | VerificationRequired
  | NonUniqueOrderLabel
  | NoMoreSecurityKeysAllowed
  | ActiveComboLimitReached
  | UnavailableForComboBooks
  | IncompleteKycData
  | MmpRequired
  | CodNotEnabled
  | QuotesFrozen
  | ScopeExceeded
  | Unavailable
  | RequestCancelledByUser
  | Replaced
  | RawSubscriptionsNotAvailableForUnauthorized
  | MovePositionsOverLimit
  | CouponAlreadyUsed
  | KycTransferAlreadyInitiated
  | Unknown (code : Int)
  deriving Repr

/-- Numeric code of each variant, mirroring the implementation of
`From<DeribitErrorCode> for i32` in `src/error/codes.rs`. -/
def DeribitErrorCode.to_code : DeribitErrorCode -> Int
  | .Success => 0
  | .AuthorizationRequired => 10000
  | .Error => 10001
  | .QtyTooLow => 10002
  | .OrderOverlap => 10003
  | .OrderNotFound => 10004
  | .PriceTooLow => 10005
  | .PriceTooLow4Idx => 10006
  | .PriceTooHigh => 10007
  | .NotEnoughFunds => 10009
  | .AlreadyClosed => 10010
  | .PriceNotAllowed => 10011
  | .BookClosed => 10012
  | .PmeMaxTotalOpenOrders => 10013
  | .PmeMaxFutureOpenOrders => 10014
  | .PmeMaxOptionOpenOrders => 10015
  | .PmeMaxFutureOpenOrdersSize => 10016
  | .PmeMaxOptionOpenOrdersSize => 10017
  | .NonPmeMaxFuturePositionSize => 10018
  | .LockedByAdmin => 10019
  | .InvalidOrUnsupportedInstrument => 10020
  | .InvalidAmount => 10021
  | .InvalidQuantity => 10022
  | .InvalidPrice => 10023
  | .InvalidMaxShow => 10024
  | .InvalidOrderId => 10025
  | .PricePrecisionExceeded => 10026
  | .NonIntegerContractAmount => 10027
  | .TooManyRequests => 10028
  | .NotOwnerOfOrder => 10029
  | .MustBeWebsocketRequest => 10030
  | .InvalidArgsForInstrument => 10031
  | .WholeCostTooLow => 10032
  | .NotImplemented => 10033
  | .TriggerPriceTooHigh => 10034
  | .TriggerPriceTooLow => 10035
  | .InvalidMaxShowAmount => 10036
  | .NonPmeTotalShortOptionsPositionsSize => 10037
  | .PmeMaxRiskReducingOrders => 10038
  | .NotEnoughFundsInCurrency => 10039
  | .Retry => 10040
  | .SettlementInProgress => 10041
  | .PriceWrongTick => 10043
  | .TriggerPriceWrongTick => 10044
  | .CanNotCancelLiquidationOrder => 10045
  | .CanNotEditLiquidationOrder => 10046
  | .MatchingEngineQueueFull => 10047
  | .NotOnThisServer => 10048
  | .CancelOnDisconnectFailed => 10049
  | .TooManyConcurrentRequests => 10066
  | .DisabledWhilePositionLock => 10072
  | .AlreadyFilled => 11008
  | .MaxSpotOpenOrders => 11013
  | .PostOnlyPriceModificationNotPossible => 11021
  | .MaxSpotOrderQuantity => 11022
  | .InvalidArguments => 11029
  | .OtherReject => 11030
  | .OtherError => 11031
  | .NoMoreTriggers => 11035
  | .InvalidTriggerPrice => 11036
  | .OutdatedInstrumentForIvOrder => 11037
  | .NoAdvForFutures => 11038
  | .NoAdvPostonly => 11039
  | .NotAdvOrder => 11041
  | .PermissionDenied => 11042
  | .BadArgument => 11043
  | .NotOpenOrder => 11044
  | .InvalidEvent => 11045
  | .OutdatedInstrument => 11046
  | .UnsupportedArgCombination => 11047
  | .WrongMaxShowForOption => 11048
  | .BadArguments => 11049
  | .BadRequest => 11050
  | .SystemMaintenance => 11051
  | .SubscribeErrorUnsubscribed => 11052
  | .TransferNotFound => 11053
  | .PostOnlyReject => 11054
  | .PostOnlyNotAllowed => 11055
  | .UnauthenticatedPublicRequestsTemporarilyDisabled => 11056
  | .InvalidAddr => 11090
  | .InvalidTransferAddress => 11091
  | .AddressAlreadyExist => 11092
  | .MaxAddrCountExceeded => 11093
  | .InternalServerError => 11094
  | .DisabledDepositAddressCreation => 11095
  | .AddressBelongsToUser => 11096
  | .NoDepositAddress => 11097
  | .AccountLocked => 11098
  | .TooManySubaccounts => 12001
  | .WrongSubaccountName => 12002
  | .LoginOverLimit => 12003
  | .RegistrationOverLimit => 12004
  | .CountryIsBanned => 12005
  | .TransferNotAllowed => 12100
  | .SecurityKeyAuthorizationOverLimit => 12998
  | .InvalidCredentials => 13004
  | .PwdMatchError => 13005
  | .SecurityError => 13006
  | .UserNotFound => 13007
  | .RequestFailed => 13008
  | .Unauthorized => 13009
  | .ValueRequired => 13010
  | .ValueTooShort => 13011
  | .UnavailableInSubaccount => 13012
  | .InvalidPhoneNumber => 13013
  | .CannotSendSms => 13014
  | .InvalidSmsCode => 13015
  | .InvalidInput => 13016
  | .InvalidContentType => 13018
  | .OrderbookClosed => 13019
  | .NotFound => 13020
  | .Forbidden => 13021
  | .MethodSwitchedOffByAdmin => 13025
  | .TemporarilyUnavailable => 13028
  | .MmpTrigger => 13030
  | .VerificationRequired => 13031
  | .NonUniqueOrderLabel => 13032
  | .NoMoreSecurityKeysAllowed => 13034
  | .ActiveComboLimitReached => 13035
  | .UnavailableForComboBooks => 13036
  | .IncompleteKycData => 13037
  | .MmpRequired => 13040
  | .CodNotEnabled => 13042
  | .QuotesFrozen => 13043
  | .ScopeExceeded => 13403
  | .Unavailable => 13503
  | .RequestCancelledByUser => 13666
  | .Replaced => 13777
  | .RawSubscriptionsNotAvailableForUnauthorized => 13778
  | .MovePositionsOverLimit => 13780
  | .CouponAlreadyUsed => 13781
  | .KycTransferAlreadyInitiated => 13791
  | .Unknown code => code

/-- Variant for each numeric code, mirroring the implementation of
`From<i32> for DeribitErrorCode` in `src/error/codes.rs`. -/
def DeribitErrorCode.from_code (code : Int) : DeribitErrorCode :=
  match code with
  | 0 => .Success
  | 10000 => .AuthorizationRequired
  | 10001 => .Error
  | 10002 => .QtyTooLow
  | 10003 => .OrderOverlap
  | 10004 => .OrderNotFound
  | 10005 => .PriceTooLow
  | 10006 => .PriceTooLow4Idx
  | 10007 => .PriceTooHigh
  | 10009 => .NotEnoughFunds
  | 10010 => .AlreadyClosed
  | 10011 => .PriceNotAllowed
  | 10012 => .BookClosed
  | 10013 => .PmeMaxTotalOpenOrders
  | 10014 => .PmeMaxFutureOpenOrders
  | 10015 => .PmeMaxOptionOpenOrders
  | 10016 => .PmeMaxFutureOpenOrdersSize
  | 10017 => .PmeMaxOptionOpenOrdersSize
  | 10018 => .NonPmeMaxFuturePositionSize
  | 10019 => .LockedByAdmin
  | 10020 => .InvalidOrUnsupportedInstrument
  | 10021 => .InvalidAmount
  | 10022 => .InvalidQuantity
  | 10023 => .InvalidPrice
  | 10024 => .InvalidMaxShow
  | 10025 => .InvalidOrderId
  | 10026 => .PricePrecisionExceeded
  | 10027 => .NonIntegerContractAmount
  | 10028 => .TooManyRequests
  | 10029 => .NotOwnerOfOrder
  | 10030 => .MustBeWebsocketRequest
  | 10031 => .InvalidArgsForInstrument
  | 10032 => .WholeCostTooLow
  | 10033 => .NotImplemented
  | 10034 => .TriggerPriceTooHigh
  | 10035 => .TriggerPriceTooLow
  | 10036 => .InvalidMaxShowAmount
  | 10037 => .NonPmeTotalShortOptionsPositionsSize
  | 10038 => .PmeMaxRiskReducingOrders
  | 10039 => .NotEnoughFundsInCurrency
  | 10040 => .Retry
  | 10041 => .SettlementInProgress
  | 10043 => .PriceWrongTick
  | 10044 => .TriggerPriceWrongTick
  | 10045 => .CanNotCancelLiquidationOrder
  | 10046 => .CanNotEditLiquidationOrder
  | 10047 => .MatchingEngineQueueFull
  | 10048 => .NotOnThisServer
  | 10049 => .CancelOnDisconnectFailed
  | 10066 => .TooManyConcurrentRequests
  | 10072 => .DisabledWhilePositionLock
  | 11008 => .AlreadyFilled
  | 11013 => .MaxSpotOpenOrders
  | 11021 => .PostOnlyPriceModificationNotPossible
  | 11022 => .MaxSpotOrderQuantity
  | 11029 => .InvalidArguments
  | 11030 => .OtherReject
  | 11031 => .OtherError
  | 11035 => .NoMoreTriggers
  | 11036 => .InvalidTriggerPrice
  | 11037 => .OutdatedInstrumentForIvOrder
  | 11038 => .NoAdvForFutures
  | 11039 => .NoAdvPostonly
  | 11041 => .NotAdvOrder
  | 11042 => .PermissionDenied
  | 11043 => .BadArgument
  | 11044 => .NotOpenOrder
  | 11045 => .InvalidEvent
  | 11046 => .OutdatedInstrument
  | 11047 => .UnsupportedArgCombination
  | 11048 => .WrongMaxShowForOption
  | 11049 => .BadArguments
  | 11050 => .BadRequest
  | 11051 => .SystemMaintenance
  | 11052 => .SubscribeErrorUnsubscribed
  | 11053 => .TransferNotFound
  | 11054 => .PostOnlyReject
  | 11055 => .PostOnlyNotAllowed
  | 11056 => .UnauthenticatedPublicRequestsTemporarilyDisabled
  | 11090 => .InvalidAddr
  | 11091 => .InvalidTransferAddress
  | 11092 => .AddressAlreadyExist
  | 11093 => .MaxAddrCountExceeded
  | 11094 => .InternalServerError
  | 11095 => .DisabledDepositAddressCreation
  | 11096 => .AddressBelongsToUser
  | 11097 => .NoDepositAddress
  | 11098 => .AccountLocked
  | 12001 => .TooManySubaccounts
  | 12002 => .WrongSubaccountName
  | 12003 => .LoginOverLimit
  | 12004 => .RegistrationOverLimit
  | 12005 => .CountryIsBanned
  | 12100 => .TransferNotAllowed
  | 12998 => .SecurityKeyAuthorizationOverLimit
  | 13004 => .InvalidCredentials
  | 13005 => .PwdMatchError
  | 13006 => .SecurityError
  | 13007 => .UserNotFound
  | 13008 => .RequestFailed
  | 13009 => .Unauthorized
  | 13010 => .ValueRequired
  | 13011 => .ValueTooShort
  | 13012 => .UnavailableInSubaccount
  | 13013 => .InvalidPhoneNumber
  | 13014 => .CannotSendSms
  | 13015 => .InvalidSmsCode
  | 13016 => .InvalidInput
  | 13018 => .InvalidContentType
  | 13019 => .OrderbookClosed
  | 13020 => .NotFound
  | 13021 => .Forbidden
  | 13025 => .MethodSwitchedOffByAdmin
  | 13028 => .TemporarilyUnavailable
  | 13030 => .MmpTrigger
  | 13031 => .VerificationRequired
  | 13032 => .NonUniqueOrderLabel
  | 13034 => .NoMoreSecurityKeysAllowed
  | 13035 => .ActiveComboLimitReached
  | 13036 => .UnavailableForComboBooks
  | 13037 => .IncompleteKycData
  | 13040 => .MmpRequired
  | 13042 => .CodNotEnabled
  | 13043 => .QuotesFrozen
  | 13403 => .ScopeExceeded
  | 13503 => .Unavailable
  | 13666 => .RequestCancelledByUser
  | 13777 => .Replaced
  | 13778 => .RawSubscriptionsNotAvailableForUnauthorized
  | 13780 => .MovePositionsOverLimit
  | 13781 => .CouponAlreadyUsed
  | 13791 => .KycTransferAlreadyInitiated
  | _ => .Unknown code

/-- Short error message of each variant, mirroring `DeribitErrorCode::message`
in `src/error/codes.rs`. -/
def DeribitErrorCode.message : DeribitErrorCode -> String
  | .Success => "success"
  | .AuthorizationRequired => "authorization_required"
  | .Error => "error"
  | .QtyTooLow => "qty_too_low"
  | .OrderOverlap => "order_overlap"
  | .OrderNotFound => "order_not_found"
  | .PriceTooLow => "price_too_low"
  | .PriceTooLow4Idx => "price_too_low4idx"
  | .PriceTooHigh => "price_too_high"
  | .NotEnoughFunds => "not_enough_funds"
  | .AlreadyClosed => "already_closed"
  | .PriceNotAllowed => "price_not_allowed"
  | .BookClosed => "book_closed"
  | .PmeMaxTotalOpenOrders => "pme_max_total_open_orders"
  | .PmeMaxFutureOpenOrders => "pme_max_future_open_orders"
  | .PmeMaxOptionOpenOrders => "pme_max_option_open_orders"
  | .PmeMaxFutureOpenOrdersSize => "pme_max_future_open_orders_size"
  | .PmeMaxOptionOpenOrdersSize => "pme_max_option_open_orders_size"
  | .NonPmeMaxFuturePositionSize => "non_pme_max_future_position_size"
  | .LockedByAdmin => "locked_by_admin"
  | .InvalidOrUnsupportedInstrument => "invalid_or_unsupported_instrument"
  | .InvalidAmount => "invalid_amount"
  | .InvalidQuantity => "invalid_quantity"
  | .InvalidPrice => "invalid_price"
  | .InvalidMaxShow => "invalid_max_show"
  | .InvalidOrderId => "invalid_order_id"
  | .PricePrecisionExceeded => "price_precision_exceeded"
  | .NonIntegerContractAmount => "non_integer_contract_amount"
  | .TooManyRequests => "too_many_requests"
  | .NotOwnerOfOrder => "not_owner_of_order"
  | .MustBeWebsocketRequest => "must_be_websocket_request"
  | .InvalidArgsForInstrument => "invalid_args_for_instrument"
  | .WholeCostTooLow => "whole_cost_too_low"
  | .NotImplemented => "not_implemented"
  | .TriggerPriceTooHigh => "trigger_price_too_high"
  | .TriggerPriceTooLow => "trigger_price_too_low"
  | .InvalidMaxShowAmount => "invalid_max_show_amount"
  | .NonPmeTotalShortOptionsPositionsSize => "non_pme_total_short_options_positions_size"
  | .PmeMaxRiskReducingOrders => "pme_max_risk_reducing_orders"
  | .NotEnoughFundsInCurrency => "not_enough_funds_in_currency"
  | .Retry => "retry"
  | .SettlementInProgress => "settlement_in_progress"
  | .PriceWrongTick => "price_wrong_tick"
  | .TriggerPriceWrongTick => "trigger_price_wrong_tick"
  | .CanNotCancelLiquidationOrder => "can_not_cancel_liquidation_order"
  | .CanNotEditLiquidationOrder => "can_not_edit_liquidation_order"
  | .MatchingEngineQueueFull => "matching_engine_queue_full"
  | .NotOnThisServer => "not_on_this_server"
  | .CancelOnDisconnectFailed => "cancel_on_disconnect_failed"
  | .TooManyConcurrentRequests => "too_many_concurrent_requests"
  | .DisabledWhilePositionLock => "disabled_while_position_lock"
  | .AlreadyFilled => "already_filled"
  | .MaxSpotOpenOrders => "max_spot_open_orders"
  | .PostOnlyPriceModificationNotPossible => "post_only_price_modification_not_possible"
  | .MaxSpotOrderQuantity => "max_spot_order_quantity"
  | .InvalidArguments => "invalid_arguments"
  | .OtherReject => "other_reject"
  | .OtherError => "other_error"
  | .NoMoreTriggers => "no_more_triggers"
  | .InvalidTriggerPrice => "invalid_trigger_price"
  | .OutdatedInstrumentForIvOrder => "outdated_instrument_for_IV_order"
  | .NoAdvForFutures => "no_adv_for_futures"
  | .NoAdvPostonly => "no_adv_postonly"
  | .NotAdvOrder => "not_adv_order"
  | .PermissionDenied => "permission_denied"
  | .BadArgument => "bad_argument"
  | .NotOpenOrder => "not_open_order"
  | .InvalidEvent => "invalid_event"
  | .OutdatedInstrument => "outdated_instrument"
  | .UnsupportedArgCombination => "unsupported_arg_combination"
  | .WrongMaxShowForOption => "wrong_max_show_for_option"
  | .BadArguments => "bad_arguments"
  | .BadRequest => "bad_request"
  | .SystemMaintenance => "system_maintenance"
  | .SubscribeErrorUnsubscribed => "subscribe_error_unsubscribed"
  | .TransferNotFound => "transfer_not_found"
  | .PostOnlyReject => "post_only_reject"
  | .PostOnlyNotAllowed => "post_only_not_allowed"
  | .UnauthenticatedPublicRequestsTemporarilyDisabled => "unauthenticated_public_requests_temporarily_disabled"
  | .InvalidAddr => "invalid_addr"
  | .InvalidTransferAddress => "invalid_transfer_address"
  | .AddressAlreadyExist => "address_already_exist"
  | .MaxAddrCountExceeded => "max_addr_count_exceeded"
  | .InternalServerError => "internal_server_error"
  | .DisabledDepositAddressCreation => "disabled_deposit_address_creation"
  | .AddressBelongsToUser => "address_belongs_to_user"
  | .NoDepositAddress => "no_deposit_address"
  | .AccountLocked => "account_locked"
  | .TooManySubaccounts => "too_many_subaccounts"
  | .WrongSubaccountName => "wrong_subaccount_name"
  | .LoginOverLimit => "login_over_limit"
  | .RegistrationOverLimit => "registration_over_limit"
  | .CountryIsBanned => "country_is_banned"
  | .TransferNotAllowed => "transfer_not_allowed"
  | .SecurityKeyAuthorizationOverLimit => "security_key_authorization_over_limit"
  | .InvalidCredentials => "invalid_credentials"
  | .PwdMatchError => "pwd_match_error"
  | .SecurityError => "security_error"
  | .UserNotFound => "user_not_found"
  | .RequestFailed => "request_failed"
  | .Unauthorized => "unauthorized"
  | .ValueRequired => "value_required"
  | .ValueTooShort => "value_too_short"
  | .UnavailableInSubaccount => "unavailable_in_subaccount"
  | .InvalidPhoneNumber => "invalid_phone_number"
  | .CannotSendSms => "cannot_send_sms"
  | .InvalidSmsCode => "invalid_sms_code"
  | .InvalidInput => "invalid_input"
  | .InvalidContentType => "invalid_content_type"
  | .OrderbookClosed => "orderbook_closed"
  | .NotFound => "not_found"
  | .Forbidden => "forbidden"
  | .MethodSwitchedOffByAdmin => "method_switched_off_by_admin"
  | .TemporarilyUnavailable => "temporarily_unavailable"
  | .MmpTrigger => "mmp_trigger"
  | .VerificationRequired => "verification_required"
  | .NonUniqueOrderLabel => "non_unique_order_label"
  | .NoMoreSecurityKeysAllowed => "no_more_security_keys_allowed"
  | .ActiveComboLimitReached => "active_combo_limit_reached"
  | .UnavailableForComboBooks => "unavailable_for_combo_books"
  | .IncompleteKycData => "incomplete_KYC_data"
  | .MmpRequired => "mmp_required"
  | .CodNotEnabled => "cod_not_enabled"
  | .QuotesFrozen => "quotes_frozen"
  | .ScopeExceeded => "scope_exceeded"
  | .Unavailable => "unavailable"
  | .RequestCancelledByUser => "request_cancelled_by_user"
  | .Replaced => "replaced"
  | .RawSubscriptionsNotAvailableForUnauthorized => "raw_subscriptions_not_available_for_unauthorized"
  | .MovePositionsOverLimit => "move_positions_over_limit"
  | .CouponAlreadyUsed => "coupon_already_used"
  | .KycTransferAlreadyInitiated => "KYC_transfer_already_initiated"
  | .Unknown _ => "unknown_error"

/-- The integer codes registered in the lookup table of
`From<i32> for DeribitErrorCode`, in source order. -/
def registeredCodes : List Int :=
  [0, 10000, 10001, 10002, 10003, 10004, 10005, 10006, 10007, 10009,
   10010, 10011, 10012, 10013, 10014, 10015, 10016, 10017, 10018, 10019,
   10020, 10021, 10022, 10023, 10024, 10025, 10026, 10027, 10028, 10029,
   10030, 10031, 10032, 10033, 10034, 10035, 10036, 10037, 10038, 10039,
   10040, 10041, 10043, 10044, 10045, 10046, 10047, 10048, 10049, 10066,
   10072, 11008, 11013, 11021, 11022, 11029, 11030, 11031, 11035, 11036,
   11037, 11038, 11039, 11041, 11042, 11043, 11044, 11045, 11046, 11047,
   11048, 11049, 11050, 11051, 11052, 11053, 11054, 11055, 11056, 11090,
   11091, 11092, 11093, 11094, 11095, 11096, 11097, 11098, 12001, 12002,
   12003, 12004, 12005, 12100, 12998, 13004, 13005, 13006, 13007, 13008,
   13009, 13010, 13011, 13012, 13013, 13014, 13015, 13016, 13018, 13019,
   13020, 13021, 13025, 13028, 13030, 13031, 13032, 13034, 13035, 13036,
   13037, 13040, 13042, 13043, 13403, 13503, 13666, 13777, 13778, 13780,
   13781, 13791]

/-- `DeribitErrorCode::code`, defined in the source as `self.clone().into()`,
i.e. the `From<DeribitErrorCode> for i32` conversion. -/
def DeribitErrorCode.code (e : DeribitErrorCode) : Int := e.to_code

/-- `DeribitErrorCode::is_success` from `src/error/codes.rs`. -/
def DeribitErrorCode.is_success : DeribitErrorCode -> Bool
  | .Success => true
  | _ => false

/-- `DeribitErrorCode::is_authorization_error` from `src/error/codes.rs`. -/
def DeribitErrorCode.is_authorization_error : DeribitErrorCode -> Bool
  | .AuthorizationRequired | .Unauthorized => true
  | _ => false

/-- `DeribitErrorCode::is_rate_limit_error` from `src/error/codes.rs`. -/
def DeribitErrorCode.is_rate_limit_error : DeribitErrorCode -> Bool
  | .TooManyRequests | .TooManyConcurrentRequests => true
  | _ => false

/-- `DeribitErrorCode::is_validation_error` from `src/error/codes.rs`. -/
def DeribitErrorCode.is_validation_error : DeribitErrorCode -> Bool
  | .InvalidAmount | .InvalidPrice | .InvalidQuantity | .InvalidOrderId
  | .InvalidArguments | .BadArgument | .BadArguments | .InvalidInput => true
  | _ => false

/-- `DeribitErrorCode::is_trading_error` from `src/error/codes.rs`. -/
def DeribitErrorCode.is_trading_error : DeribitErrorCode -> Bool
  | .QtyTooLow | .OrderOverlap | .OrderNotFound | .PriceTooLow
  | .PriceTooHigh | .NotEnoughFunds | .AlreadyClosed | .PriceNotAllowed
  | .BookClosed => true
  | _ => false

/-- True on every constructor other than `Unknown`. -/
def DeribitErrorCode.isNamedVariant : DeribitErrorCode -> Bool
  | .Unknown _ => false
  | _ => true

/-- The `DeribitError` enum from `src/error/types.rs`.  String payloads are
Lean `String`s and the `Api` code is an `Int`. -/
inductive DeribitError where
  | Connection (msg : String)
  | Authentication (msg : String)
  | Api (code : Int) (message : String)
  | Serialization (msg : String)
  | Timeout
  | InvalidConfig (msg : String)
  | Other (msg : String)
  deriving DecidableEq, Repr

/-- The `fmt::Display` implementation for `DeribitError` in
`src/error/types.rs`; `write!` templates become string concatenation and the
`i32` code is rendered in decimal via `toString`. -/
def DeribitError.display : DeribitError -> String
  | .Connection msg => "Connection error: " ++ msg
  | .Authentication msg => "Authentication error: " ++ msg
  | .Api code message => "API error " ++ toString code ++ ": " ++ message
  | .Serialization msg => "Serialization error: " ++ msg
  | .Timeout => "Request timeout"
  | .InvalidConfig msg => "Invalid configuration: " ++ msg
  | .Other msg => "Error: " ++ msg

/-- `From<DeribitErrorCode> for DeribitError` from `src/error/conversions.rs`. -/
def DeribitError.from_error_code (error_code : DeribitErrorCode) : DeribitError :=
  .Api error_code.code error_code.message

/-- `From<u16> for DeribitErrorCode` (HTTP status conversion) from
`src/error/conversions.rs`; the `u16` status is a `Nat` and the
`status as i32` cast is `Int.ofNat`. -/
def DeribitErrorCode.from_status (status : Nat) : DeribitErrorCode :=
  match status with
  | 400 => .BadRequest
  | 401 => .Unauthorized
  | 403 => .Forbidden
  | 404 => .NotFound
  | 429 => .TooManyRequests
  | 500 => .InternalServerError
  | 503 => .TemporarilyUnavailable
  | _ => .Unknown (Int.ofNat status)

/-- `From<String> for DeribitError` (and `From<&str>`, which copies the text)
from `src/error/conversions.rs`. -/
def DeribitError.from_text (message : String) : DeribitError :=
  .Connection message

/-- `From<serde_json::Error> for DeribitError` from `src/error/conversions.rs`:
the conversion only uses `error.to_string()`, so the opaque `serde_json::Error`
is embedded as its rendered error text. -/
def DeribitError.from_json_failure (errText : String) : DeribitError :=
  .Serialization errText

/-- The character class the spec asserts for `message`: lowercase snake-case,
i.e. only lowercase ASCII letters, digits and underscores. -/
def specLowerSnake (s : String) : Bool :=
  s.toList.all (fun ch => ch.isLower || ch.isDigit || ch = '_')

/-- Identifier characters: ASCII letters of either case, digits, underscores. -/
def identChars (s : String) : Bool :=
  s.toList.all (fun ch => ch.isAlpha || ch.isDigit || ch = '_')


/-! ## Helper lemmas -/

set_option maxRecDepth 100000

set_option maxHeartbeats 4000000 in
theorem registered_roundtrip :
    forall c : Int, c ∈ registeredCodes -> (DeribitErrorCode.from_code c).to_code = c := by
  decide

set_option maxHeartbeats 4000000 in
theorem registered_from_named :
    forall c : Int, c ∈ registeredCodes ->
      (DeribitErrorCode.from_code c).isNamedVariant = true := by
  decide

theorem registeredCodes_nonneg :
    forall c : Int, c ∈ registeredCodes -> 0 ≤ c := by
  decide

set_option maxHeartbeats 8000000 in
theorem from_code_unregistered :
    forall c : Int, c ∉ registeredCodes -> DeribitErrorCode.from_code c = .Unknown c := by
  intro c h
  unfold DeribitErrorCode.from_code
  split
  all_goals first | rfl | exact absurd (by decide) h

set_option maxHeartbeats 4000000 in
theorem named_roundtrip :
    forall x : DeribitErrorCode, x.isNamedVariant = true ->
      DeribitErrorCode.from_code x.to_code = x := by
  intro x h
  cases x
  all_goals first | rfl | simp [DeribitErrorCode.isNamedVariant] at h

theorem named_ne_unknown :
    forall (x : DeribitErrorCode) (c : Int), x.isNamedVariant = true -> x ≠ .Unknown c := by
  intro x c h
  cases x
  all_goals simp [DeribitErrorCode.isNamedVariant] at h ⊢

set_option maxHeartbeats 4000000 in
theorem from_status_unregistered :
    forall s : Nat, s ≠ 400 -> s ≠ 401 -> s ≠ 403 -> s ≠ 404 -> s ≠ 429 -> s ≠ 500 -> s ≠ 503 ->
      DeribitErrorCode.from_status s = .Unknown (Int.ofNat s) := by
  intro s h1 h2 h3 h4 h5 h6 h7
  unfold DeribitErrorCode.from_status
  split
  all_goals first | rfl | simp_all

/-! ## Claim theorems -/

/-- C1: for every integer registered in the lookup table, converting it to a
`DeribitErrorCode` and back to an integer yields the same integer; in
particular 10000 maps to `AuthorizationRequired` and back to 10000. -/
theorem registered_code_roundtrip :
    (forall c : Int, c ∈ registeredCodes -> (DeribitErrorCode.from_code c).to_code = c) ∧
    DeribitErrorCode.from_code 10000 = .AuthorizationRequired ∧
    DeribitErrorCode.AuthorizationRequired.to_code = 10000 :=
  ⟨registered_roundtrip, rfl, rfl⟩

/-- C1 witness: the round trip instantiated at the registered code 10000. -/
theorem registered_code_roundtrip_witness :
    (DeribitErrorCode.from_code 10000).to_code = 10000 :=
  registered_code_roundtrip.1 10000 (by decide)

/-- C2: `from_code` is total: 0 maps to `Success`, every unregistered integer
(including every negative one) maps to `Unknown` preserving the value, and
`from_code 999999` keeps code 999999 with message "unknown_error". -/
theorem from_code_total :
    DeribitErrorCode.from_code 0 = .Success ∧
    (forall c : Int, c ∉ registeredCodes -> DeribitErrorCode.from_code c = .Unknown c) ∧
    (forall c : Int, c < 0 -> DeribitErrorCode.from_code c = .Unknown c) ∧
    (DeribitErrorCode.from_code 999999).to_code = 999999 ∧
    (DeribitErrorCode.from_code 999999).message = "unknown_error" := by
  refine ⟨rfl, from_code_unregistered, ?_, rfl, rfl⟩
  intro c hc
  apply from_code_unregistered
  intro hmem
  have := registeredCodes_nonneg c hmem
  omega

/-- C2 witness: the unregistered code 999998 and the negative code -3. -/
theorem from_code_total_witness :
    DeribitErrorCode.from_code 999998 = .Unknown 999998 ∧
    DeribitErrorCode.from_code (-3) = .Unknown (-3) :=
  ⟨from_code_total.2.1 999998 (by decide), from_code_total.2.2.1 (-3) (by decide)⟩

/-- C3: converting a `DeribitErrorCode` to the `DeribitError` envelope always
yields `Api` with that code's number and message; chained with the HTTP status
converter, status 401 yields `Api 13009 "unauthorized"`. -/
theorem error_code_to_envelope :
    (forall x : DeribitErrorCode, DeribitError.from_error_code x = .Api x.code x.message) ∧
    DeribitError.from_error_code (DeribitErrorCode.from_status 401) = .Api 13009 "unauthorized" :=
  ⟨fun _ => rfl, rfl⟩

/-- C4: the HTTP status converter maps exactly the seven listed statuses to
their named variants and every other `u16` status to `Unknown` of the status;
401 gives code 13009, 404 gives 13020, 418 gives `Unknown 418`. -/
theorem status_table_exact :
    DeribitErrorCode.from_status 400 = .BadRequest ∧
    DeribitErrorCode.from_status 401 = .Unauthorized ∧
    DeribitErrorCode.from_status 403 = .Forbidden ∧
    DeribitErrorCode.from_status 404 = .NotFound ∧
    DeribitErrorCode.from_status 429 = .TooManyRequests ∧
    DeribitErrorCode.from_status 500 = .InternalServerError ∧
    DeribitErrorCode.from_status 503 = .TemporarilyUnavailable ∧
    (forall s : Nat, s < 65536 ->
      s ≠ 400 -> s ≠ 401 -> s ≠ 403 -> s ≠ 404 -> s ≠ 429 -> s ≠ 500 -> s ≠ 503 ->
      DeribitErrorCode.from_status s = .Unknown (Int.ofNat s)) ∧
    (DeribitErrorCode.from_status 401).to_code = 13009 ∧
    (DeribitErrorCode.from_status 404).to_code = 13020 ∧
    DeribitErrorCode.from_status 418 = .Unknown 418 :=
  ⟨rfl, rfl, rfl, rfl, rfl, rfl, rfl,
   fun s _ h1 h2 h3 h4 h5 h6 h7 => from_status_unregistered s h1 h2 h3 h4 h5 h6 h7,
   rfl, rfl, rfl⟩

/-- C4 witness: the default branch instantiated at status 418. -/
theorem status_table_exact_witness :
    DeribitErrorCode.from_status 418 = .Unknown (Int.ofNat 418) :=
  status_table_exact.2.2.2.2.2.2.2.1 418 (by decide) (by decide) (by decide) (by decide)
    (by decide) (by decide) (by decide) (by decide)

/-- C5: `is_authorization_error` holds exactly on `AuthorizationRequired` and
`Unauthorized`, `is_rate_limit_error` exactly on `TooManyRequests` and
`TooManyConcurrentRequests`; on `AuthorizationRequired` the other three
category predicates are false, and likewise on `TooManyRequests`. -/
theorem category_membership :
    (forall x : DeribitErrorCode,
      (x.is_authorization_error = true ↔
        x = .AuthorizationRequired ∨ x = .Unauthorized) ∧
      (x.is_rate_limit_error = true ↔
        x = .TooManyRequests ∨ x = .TooManyConcurrentRequests)) ∧
    DeribitErrorCode.AuthorizationRequired.is_authorization_error = true ∧
    DeribitErrorCode.AuthorizationRequired.is_rate_limit_error = false ∧
    DeribitErrorCode.AuthorizationRequired.is_validation_error = false ∧
    DeribitErrorCode.AuthorizationRequired.is_trading_error = false ∧
    DeribitErrorCode.TooManyRequests.is_rate_limit_error = true ∧
    DeribitErrorCode.TooManyRequests.is_authorization_error = false ∧
    DeribitErrorCode.TooManyRequests.is_validation_error = false ∧
    DeribitErrorCode.TooManyRequests.is_trading_error = false := by
  refine ⟨fun x => ?_, rfl, rfl, rfl, rfl, rfl, rfl, rfl, rfl⟩
  cases x
  all_goals
    simp [DeribitErrorCode.is_authorization_error, DeribitErrorCode.is_rate_limit_error]

/-- C6: the `Display` rendering of each `DeribitError` variant follows its
fixed template for every payload. -/
theorem display_templates :
    forall (t : String) (c : Int),
      DeribitError.display (.Connection t) = "Connection error: " ++ t ∧
      DeribitError.display (.Authentication t) = "Authentication error: " ++ t ∧
      DeribitError.display (.Api c t) = "API error " ++ toString c ++ ": " ++ t ∧
      DeribitError.display (.Serialization t) = "Serialization error: " ++ t ∧
      DeribitError.display .Timeout = "Request timeout" ∧
      DeribitError.display (.InvalidConfig t) = "Invalid configuration: " ++ t ∧
      DeribitError.display (.Other t) = "Error: " ++ t :=
  fun _ _ => ⟨rfl, rfl, rfl, rfl, rfl, rfl, rfl⟩

/-- C7 counterexample: the message of `OutdatedInstrumentForIvOrder` is
"outdated_instrument_for_IV_order", which contains uppercase letters, so it is
not a lowercase snake-case identifier as the claim states. -/
theorem message_not_lower_snake :
    DeribitErrorCode.OutdatedInstrumentForIvOrder.message
        = "outdated_instrument_for_IV_order" ∧
    specLowerSnake DeribitErrorCode.OutdatedInstrumentForIvOrder.message = false :=
  ⟨rfl, by decide⟩

/-- C7 amended: every variant has a fixed non-empty message made only of
ASCII letters, digits and underscores; it is lowercase snake-case except for
the three variants whose messages embed the uppercase acronyms IV and KYC;
`Unknown` always yields "unknown_error" whatever its payload. -/
theorem message_well_formed :
    (forall x : DeribitErrorCode, x.message.length ≠ 0 ∧ identChars x.message = true) ∧
    (forall x : DeribitErrorCode,
      x ≠ .OutdatedInstrumentForIvOrder -> x ≠ .IncompleteKycData ->
      x ≠ .KycTransferAlreadyInitiated -> specLowerSnake x.message = true) ∧
    (forall p : Int, (DeribitErrorCode.Unknown p).message = "unknown_error") := by
  refine ⟨fun x => ?_, fun x h1 h2 h3 => ?_, fun _ => rfl⟩
  · cases x
    all_goals first
      | decide
      | exact (by decide :
          ("unknown_error" : String).length ≠ 0 ∧ identChars "unknown_error" = true)
  · cases x
    all_goals first
      | decide
      | exact absurd rfl h1
      | exact absurd rfl h2
      | exact absurd rfl h3
      | exact (by decide : specLowerSnake "unknown_error" = true)

/-- C7 witness: the lowercase clause instantiated at `Success`. -/
theorem message_well_formed_witness :
    specLowerSnake DeribitErrorCode.Success.message = true :=
  message_well_formed.2.1 .Success (by simp) (by simp) (by simp)

/-- C8: a deserialization failure converts to `Serialization` of its error
text, and a free-text message converts to `Connection` of the text, never to
any other variant. -/
theorem text_conversions :
    (forall s : String, DeribitError.from_text s = .Connection s) ∧
    (forall e : String, DeribitError.from_json_failure e = .Serialization e) :=
  ⟨fun _ => rfl, fun _ => rfl⟩

/-- C9: the variant-level round trip holds on every named variant, but an
`Unknown` payload colliding with a registered code does not survive the trip:
it comes back as the named variant, so `to_code` is not injective (for example
`Unknown 0` and `Success` share code 0). -/
theorem unknown_collision :
    (forall x : DeribitErrorCode, x.isNamedVariant = true ->
      DeribitErrorCode.from_code x.to_code = x) ∧
    (forall c : Int, c ∈ registeredCodes ->
      DeribitErrorCode.from_code (DeribitErrorCode.Unknown c).to_code
          = DeribitErrorCode.from_code c ∧
      (DeribitErrorCode.from_code c).isNamedVariant = true ∧
      DeribitErrorCode.from_code (DeribitErrorCode.Unknown c).to_code ≠ .Unknown c) ∧
    (DeribitErrorCode.Unknown 0).to_code = DeribitErrorCode.Success.to_code ∧
    DeribitErrorCode.Unknown 0 ≠ DeribitErrorCode.Success := by
  refine ⟨named_roundtrip, fun c hc => ?_, rfl, by simp⟩
  exact ⟨rfl, registered_from_named c hc,
    named_ne_unknown (DeribitErrorCode.from_code c) c (registered_from_named c hc)⟩

/-- C9 witness: the named round trip at `Success` and the collision at the
registered code 10000. -/
theorem unknown_collision_witness :
    DeribitErrorCode.from_code DeribitErrorCode.Success.to_code = .Success ∧
    DeribitErrorCode.from_code (DeribitErrorCode.Unknown 10000).to_code
        ≠ .Unknown 10000 :=
  ⟨unknown_collision.1 .Success rfl, (unknown_collision.2.1 10000 (by decide)).2.2⟩

/-- C10: the four category predicates are pairwise disjoint on every value,
and all four are false on `Success` and on every `Unknown` payload. -/
theorem categories_disjoint :
    (forall x : DeribitErrorCode,
      (x.is_authorization_error && x.is_rate_limit_error) = false ∧
      (x.is_authorization_error && x.is_validation_error) = false ∧
      (x.is_authorization_error && x.is_trading_error) = false ∧
      (x.is_rate_limit_error && x.is_validation_error) = false ∧
      (x.is_rate_limit_error && x.is_trading_error) = false ∧
      (x.is_validation_error && x.is_trading_error) = false) ∧
    (forall p : Int,
      (DeribitErrorCode.Unknown p).is_authorization_error = false ∧
      (DeribitErrorCode.Unknown p).is_rate_limit_error = false ∧
      (DeribitErrorCode.Unknown p).is_validation_error = false ∧
      (DeribitErrorCode.Unknown p).is_trading_error = false) ∧
    (DeribitErrorCode.Success.is_authorization_error = false ∧
     DeribitErrorCode.Success.is_rate_limit_error = false ∧
     DeribitErrorCode.Success.is_validation_error = false ∧
     DeribitErrorCode.Success.is_trading_error = false) := by
  refine ⟨fun x => ?_, fun _ => ⟨rfl, rfl, rfl, rfl⟩, rfl, rfl, rfl, rfl⟩
  cases x
  all_goals first
    | decide
    | exact (by decide : ((false : Bool) && false) = false ∧ ((false : Bool) && false) = false ∧
        ((false : Bool) && false) = false ∧ ((false : Bool) && false) = false ∧
        ((false : Bool) && false) = false ∧ ((false : Bool) && false) = false)

end DeribitBase
